import Mathlib

/-!
Shallow embedding of the 6502 CPU emulator in src/main.rs (crate nes).

Modelling conventions:
* u8 / u16 values are Nat; operations that the source performs on
  `Wrapping<u8>` / `Wrapping<u16>` wrap explicitly (% 256 / % 65536).
* Arithmetic the source performs on plain u8 / u16 (`+=`, `-=`, `<<`) is
  overflow-checked, as in the profile under which the crate's tests run:
  overflow is a panic, modelled as an error result.
* Array indexing (`self.memory[addr]`) is always bounds-checked in Rust;
  an out-of-bounds index is a panic, modelled as an error result.
* `panic!` in get_operand_address and the `todo!` dispatch arm are likewise
  modelled as error results.
-/

namespace Nes

/-- Rust-side failure conditions: bounds-check panics, overflow panics of
plain (non-Wrapping) integer arithmetic, the todo-arm for opcodes missing
from the dispatch table, and the panic for resolving NoneAddressing. -/
inductive RunErr where
  | IndexOutOfBounds
  | ArithmeticOverflow
  | UnsupportedOpcode (op : Nat)
  | InvalidAddressingMode
deriving DecidableEq, Repr

/-- enum AddressingMode from src/main.rs. -/
inductive AddressingMode where
  | Immediate
  | ZeroPage
  | ZeroPage_X
  | ZeroPage_Y
  | Absolute
  | Absolute_X
  | Absolute_Y
  | Indirect
  | Indirect_X
  | Indirect_Y
  | NoneAddressing
deriving DecidableEq, Repr

/-- struct CPU from src/main.rs.  Registers hold byte values, the program
counter a 16-bit value; memory is the `[u8; 0xFFFF]` array, modelled as a
function (indices at or above memSize are never readable or writable). -/
structure CPU where
  register_a : Nat
  register_x : Nat
  register_y : Nat
  status : Nat
  program_counter : Nat
  stack_pointer : Nat
  stack_location : Nat
  stack_size : Nat
  memory : Nat → Nat

/-- Length of the source's memory array: `memory: [u8; 0xFFFF]` — 0xFFFF
(65535) cells, one short of the 65536 addresses a u16 can form. -/
def memSize : Nat := 0xFFFF

/-- CPU::new(). -/
def CPU.new : CPU :=
  { register_a := 0
    register_x := 0
    register_y := 0
    status := 0
    program_counter := 0
    memory := fun _ => 0
    stack_pointer := 0xFF
    stack_location := 0x100
    stack_size := 0xFF }

/-- Checked u16 addition (plain `+` / `+=` on u16 in the source). -/
def addU16 (a b : Nat) : Except RunErr Nat :=
  if a + b < 65536 then .ok (a + b) else .error .ArithmeticOverflow

/-- Checked u16 subtraction (plain `-` on u16 in the source). -/
def subU16 (a b : Nat) : Except RunErr Nat :=
  if b ≤ a then .ok (a - b) else .error .ArithmeticOverflow

/-- Checked u8 addition (plain `+=` on u8 in the source). -/
def addU8 (a b : Nat) : Except RunErr Nat :=
  if a + b < 256 then .ok (a + b) else .error .ArithmeticOverflow

/-- Checked u8 subtraction (plain `-=` on u8 in the source). -/
def subU8 (a b : Nat) : Except RunErr Nat :=
  if b ≤ a then .ok (a - b) else .error .ArithmeticOverflow

/-- Checked u16 left shift: `a << k` panics when k ≥ 16; otherwise the
result is truncated to 16 bits. -/
def shlU16 (a k : Nat) : Except RunErr Nat :=
  if k < 16 then .ok ((a <<< k) % 65536) else .error .ArithmeticOverflow

/-- fn mem_read: `self.memory[addr as usize]` — bounds-checked index. -/
def mem_read (c : CPU) (addr : Nat) : Except RunErr Nat :=
  if addr < memSize then .ok (c.memory addr) else .error .IndexOutOfBounds

/-- fn mem_write: `self.memory[addr as usize] = data` — bounds-checked. -/
def mem_write (c : CPU) (addr data : Nat) : Except RunErr CPU :=
  if addr < memSize then
    .ok { c with memory := fun i => if i = addr then data else c.memory i }
  else .error .IndexOutOfBounds

/-- fn mem_read_u16: little-endian pair at pos, pos + 1 (plain u16 add). -/
def mem_read_u16 (c : CPU) (pos : Nat) : Except RunErr Nat := do
  let lo ← mem_read c pos
  let p1 ← addU16 pos 1
  let hi ← mem_read c p1
  .ok ((hi <<< 8) ||| lo)

/-- fn mem_write_u16: `hi = (data >> 8) as u8`, `lo = (data & 0xff) as u8`,
lo at pos, hi at pos + 1. -/
def mem_write_u16 (c : CPU) (pos data : Nat) : Except RunErr CPU := do
  let hi := (data >>> 8) % 256
  let lo := data &&& 0xff
  let c ← mem_write c pos lo
  let p1 ← addU16 pos 1
  mem_write c p1 hi

/-- fn stack_push: write at the raw stack_pointer value (the source never
offsets into the 0x100 stack page), then `self.stack_pointer -= 1`. -/
def stack_push (c : CPU) (byte : Nat) : Except RunErr CPU := do
  let c ← mem_write c c.stack_pointer byte
  let sp ← subU8 c.stack_pointer 1
  .ok { c with stack_pointer := sp }

/-- fn stack_pop: read at the current stack_pointer, then
`self.stack_pointer += 1`; returns the byte and the new state. -/
def stack_pop (c : CPU) : Except RunErr (Nat × CPU) := do
  let val ← mem_read c c.stack_pointer
  let sp ← addU8 c.stack_pointer 1
  .ok (val, { c with stack_pointer := sp })

/-- fn reset: clears A, X, Y and status, reloads PC from the reset vector
at 0xFFFC.  The stack pointer is not written. -/
def reset (c : CPU) : Except RunErr CPU := do
  let pc ← mem_read_u16 c 0xFFFC
  .ok { c with
        register_a := 0
        register_x := 0
        register_y := 0
        status := 0
        program_counter := pc }

/-- fn load: `self.memory[0x8000..(0x8000 + program.len())]
.copy_from_slice(..)` — the slice panics if the end exceeds the array
length memSize; otherwise the image is copied and the reset vector written. -/
def load (c : CPU) (program : List Nat) : Except RunErr CPU :=
  if 0x8000 + program.length ≤ memSize then
    let c1 : CPU :=
      { c with memory := fun i =>
          if 0x8000 ≤ i ∧ i < 0x8000 + program.length then
            program.getD (i - 0x8000) 0
          else c.memory i }
    mem_write_u16 c1 0xFFFC 0x8000
  else .error .IndexOutOfBounds

/-- fn update_zero_and_negative_flags, as a pure function of the status
byte and the produced value. -/
def update_zero_and_negative_flags (status result : Nat) : Nat :=
  let s := if result = 0 then status ||| 0b10 else status &&& 0b11111101
  if result &&& 0b10000000 ≠ 0 then s ||| 0b10000000 else s &&& 0b01111111

/-- fn get_operand_address. -/
def get_operand_address (c : CPU) (mode : AddressingMode) : Except RunErr Nat :=
  match mode with
  | .Immediate => .ok c.program_counter
  | .ZeroPage => mem_read c c.program_counter
  | .Absolute => mem_read_u16 c c.program_counter
  | .ZeroPage_X => do
      let pos ← mem_read c c.program_counter
      .ok ((c.register_x + pos) % 256)
  | .ZeroPage_Y => do
      let pos ← mem_read c c.program_counter
      .ok ((pos + c.register_y) % 256)
  | .Absolute_X => do
      let base ← mem_read_u16 c c.program_counter
      .ok ((c.register_x + base) % 65536)
  | .Absolute_Y => do
      let base ← mem_read_u16 c c.program_counter
      .ok ((c.register_y + base) % 65536)
  | .Indirect => do
      let base ← mem_read c c.program_counter
      let lo ← mem_read c base
      let hi ← mem_read c ((base + 1) % 256)
      .ok ((hi <<< 8) ||| lo)
  | .Indirect_X => do
      let base ← mem_read c c.program_counter
      let ptr := (base + c.register_x) % 256
      let lo ← mem_read c ptr
      let hi ← mem_read c ((ptr + 1) % 256)
      .ok ((hi <<< 8) ||| lo)
  | .Indirect_Y => do
      let base ← mem_read c c.program_counter
      let lo ← mem_read c base
      let hi ← mem_read c ((base + 1) % 256)
      let deref_base := (hi <<< 8) ||| lo
      .ok ((deref_base + c.register_y) % 65536)
  | .NoneAddressing => .error .InvalidAddressingMode

/-- fn get_address_size. -/
def get_address_size (mode : AddressingMode) : Nat :=
  match mode with
  | .Immediate => 1
  | .ZeroPage => 1
  | .ZeroPage_X => 1
  | .ZeroPage_Y => 1
  | .Absolute => 2
  | .Absolute_X => 2
  | .Absolute_Y => 2
  | .Indirect => 1
  | .Indirect_X => 1
  | .Indirect_Y => 1
  | .NoneAddressing => 0

/-- fn lda. -/
def lda (c : CPU) (mode : AddressingMode) : Except RunErr CPU := do
  let addr ← get_operand_address c mode
  let value ← mem_read c addr
  .ok { c with register_a := value
               status := update_zero_and_negative_flags c.status value }

/-- fn ldy. -/
def ldy (c : CPU) (mode : AddressingMode) : Except RunErr CPU := do
  let addr ← get_operand_address c mode
  let value ← mem_read c addr
  .ok { c with register_y := value
               status := update_zero_and_negative_flags c.status value }

/-- fn ldx. -/
def ldx (c : CPU) (mode : AddressingMode) : Except RunErr CPU := do
  let addr ← get_operand_address c mode
  let value ← mem_read c addr
  .ok { c with register_x := value
               status := update_zero_and_negative_flags c.status value }

/-- fn tax. -/
def tax (c : CPU) : CPU :=
  { c with register_x := c.register_a
           status := update_zero_and_negative_flags c.status c.register_a }

/-- fn txa. -/
def txa (c : CPU) : CPU :=
  { c with register_a := c.register_x
           status := update_zero_and_negative_flags c.status c.register_x }

/-- fn inx: `self.register_x += Wrapping(1)` — wrapping u8 add. -/
def inx (c : CPU) : CPU :=
  { c with register_x := (c.register_x + 1) % 256
           status := update_zero_and_negative_flags c.status ((c.register_x + 1) % 256) }

/-- fn sta. -/
def sta (c : CPU) (mode : AddressingMode) : Except RunErr CPU := do
  let addr ← get_operand_address c mode
  mem_write c addr c.register_a

/-- fn stx. -/
def stx (c : CPU) (mode : AddressingMode) : Except RunErr CPU := do
  let addr ← get_operand_address c mode
  mem_write c addr c.register_x

/-- fn sty. -/
def sty (c : CPU) (mode : AddressingMode) : Except RunErr CPU := do
  let addr ← get_operand_address c mode
  mem_write c addr c.register_y

/-- fn jmp. -/
def jmp (c : CPU) (mode : AddressingMode) : Except RunErr CPU := do
  let addr ← get_operand_address c mode
  .ok { c with program_counter := addr }

/-- fn jsr.  Note the source advances PC by the operand size before
resolving the operand address, so the target is read from PC + 2. -/
def jsr (c : CPU) (mode : AddressingMode) : Except RunErr CPU := do
  let pc ← addU16 c.program_counter (get_address_size mode)
  let c := { c with program_counter := pc }
  let addr ← get_operand_address c mode
  let save_addr ← subU16 c.program_counter 1
  let lo := save_addr &&& 0xff
  let hi := (save_addr >>> 8) % 256
  let c ← stack_push c lo
  let c ← stack_push c hi
  .ok { c with program_counter := addr }

/-- fn rts.  The source computes `(hi as u16) << 8 + lo as u16`, which
parses as hi shifted left by (8 + lo). -/
def rts (c : CPU) : Except RunErr CPU := do
  let (lo, c) ← stack_pop c
  let (hi, c) ← stack_pop c
  let popped ← shlU16 hi (8 + lo)
  let pc ← addU16 popped 1
  .ok { c with program_counter := pc }

/-- Outcome of one iteration of the fetch-decode-execute loop in fn run:
either the BRK arm returned, or the loop would continue from the new state. -/
inductive StepResult where
  | halted (c : CPU)
  | running (c : CPU)

/-- The CPU state carried by a StepResult. -/
def stepResultCPU : StepResult → CPU
  | .halted c => c
  | .running c => c

/-- The final `self.program_counter += self.get_address_size(&mode)` of the
loop body (plain u16 add). -/
def advancePC (c : CPU) (mode : AddressingMode) : Except RunErr CPU := do
  let pc ← addU16 c.program_counter (get_address_size mode)
  .ok { c with program_counter := pc }

/-- The opcode bytes that have an arm in fn run's dispatch match. -/
def supportedOpcodes : List Nat :=
  [0xA9, 0xA5, 0xB5, 0xAD, 0xBD, 0xB9, 0xA1, 0xB1,
   0xA0, 0xA2,
   0x85, 0x95, 0x8E, 0x86, 0x96, 0x8C, 0x84, 0x94,
   0x4C, 0x6C, 0x20, 0x40,
   0xAA, 0x8A, 0xE8, 0x00]

/-- One iteration of fn run's loop: fetch the opcode at PC, advance PC by
one, dispatch.  Arms marked `continue` in the source (JMP, JSR, RTS) skip
the trailing PC advance; the BRK arm (0x00) returns; a byte with no arm
hits `todo!`, modelled as the UnsupportedOpcode error. -/
def step (c0 : CPU) : Except RunErr StepResult := do
  let opscode ← mem_read c0 c0.program_counter
  let pc1 ← addU16 c0.program_counter 1
  let c := { c0 with program_counter := pc1 }
  match opscode with
  | 0xA9 => do let c ← lda c .Immediate; .running <$> advancePC c .Immediate
  | 0xA5 => do let c ← lda c .ZeroPage; .running <$> advancePC c .ZeroPage
  | 0xB5 => do let c ← lda c .ZeroPage_X; .running <$> advancePC c .ZeroPage_X
  | 0xAD => do let c ← lda c .Absolute; .running <$> advancePC c .Absolute
  | 0xBD => do let c ← lda c .Absolute_X; .running <$> advancePC c .Absolute_X
  | 0xB9 => do let c ← lda c .Absolute_Y; .running <$> advancePC c .Absolute_Y
  | 0xA1 => do let c ← lda c .Indirect_X; .running <$> advancePC c .Indirect_X
  | 0xB1 => do let c ← lda c .Indirect_Y; .running <$> advancePC c .Indirect_Y
  | 0xA0 => do let c ← ldy c .Immediate; .running <$> advancePC c .Immediate
  | 0xA2 => do let c ← ldx c .Immediate; .running <$> advancePC c .Immediate
  | 0x85 => do let c ← sta c .ZeroPage; .running <$> advancePC c .ZeroPage
  | 0x95 => do let c ← sta c .ZeroPage_X; .running <$> advancePC c .ZeroPage_X
  | 0x8E => do let c ← stx c .Absolute; .running <$> advancePC c .Absolute
  | 0x86 => do let c ← stx c .ZeroPage; .running <$> advancePC c .ZeroPage
  | 0x96 => do let c ← stx c .ZeroPage_Y; .running <$> advancePC c .ZeroPage_Y
  | 0x8C => do let c ← sty c .Absolute; .running <$> advancePC c .Absolute
  | 0x84 => do let c ← sty c .ZeroPage; .running <$> advancePC c .ZeroPage
  | 0x94 => do let c ← sty c .ZeroPage_X; .running <$> advancePC c .ZeroPage_X
  | 0x4C => do let c ← jmp c .Absolute; pure (.running c)
  | 0x6C => do let c ← jmp c .Indirect; pure (.running c)
  | 0x20 => do let c ← jsr c .Absolute; pure (.running c)
  | 0x40 => do let c ← rts c; pure (.running c)
  | 0xAA => .running <$> advancePC (tax c) .NoneAddressing
  | 0x8A => .running <$> advancePC (txa c) .NoneAddressing
  | 0xE8 => .running <$> advancePC (inx c) .NoneAddressing
  | 0x00 => pure (.halted c)
  | op => .error (.UnsupportedOpcode op)

/-- fn run as a fuel-indexed iteration of step (the source loops until the
BRK arm returns or a panic aborts; fuel exhaustion returns the state as is). -/
def runFuel : Nat → CPU → Except RunErr CPU
  | 0, c => .ok c
  | n + 1, c => do
      match ← step c with
      | .halted c => .ok c
      | .running c => runFuel n c

/-- Iterated step, keeping the halted / running distinction. -/
def stepN : Nat → CPU → Except RunErr StepResult
  | 0, c => .ok (.running c)
  | n + 1, c => do
      match ← step c with
      | .halted c => .ok (.halted c)
      | .running c => stepN n c

/-- Property asserted by the spec for the flag update: in the new status
byte, bit 1 (Zero) is set iff the produced value is zero, bit 7 (Negative)
is set iff the value's high bit is set, and every other status bit keeps
its old value. -/
def flagsSpec (old new v : Nat) : Prop :=
  (new.testBit 1 ↔ v = 0) ∧
  (new.testBit 7 ↔ v &&& 0x80 ≠ 0) ∧
  ∀ i, i < 8 → i ≠ 1 → i ≠ 7 → new.testBit i = old.testBit i

/-- Modelled from the spec: effective-address formula the spec states for
Indirect_Y — pointer p is the byte at PC (no X offset), the base address is
the little-endian pair of zero-page bytes at p and p + 1 (zero-page wrap),
and Y is added with 16-bit wrap. -/
def indirectYAddrSpec (mem : Nat → Nat) (pc y : Nat) : Nat :=
  ((mem ((mem pc + 1) % 256) <<< 8 ||| mem (mem pc)) + y) % 65536

/-- Push a byte, then immediately pop; result is the popped byte together
with the stack pointer after the pop. -/
def pushPop (c : CPU) (b : Nat) : Except RunErr (Nat × Nat) := do
  let c1 ← stack_push c b
  let (v, c2) ← stack_pop c1
  .ok (v, c2.stack_pointer)

/-- Freshly constructed CPU. -/
def cpu0 : CPU := CPU.new

/-- State after LDA Immediate on cpu0 (loads the byte 0 at PC = 0). -/
def cpu1a : CPU := { cpu0 with register_a := 0, status := 2 }

/-- State after LDX Immediate on cpu0. -/
def cpu1x : CPU := { cpu0 with register_x := 0, status := 2 }

/-- State after LDY Immediate on cpu0. -/
def cpu1y : CPU := { cpu0 with register_y := 0, status := 2 }

/-- Fresh CPU whose memory is filled with the byte 0x02, an opcode with no
dispatch arm. -/
def cpuBad : CPU := { cpu0 with memory := fun _ => 0x02 }

/-- The Indirect_Y scenario of the spec: zero-page pointer bytes 0x03, 0x07
at 0x01 / 0x02, pointer byte 0x01 at PC, Y = 1. -/
def cpuC6 : CPU :=
  { cpu0 with
    program_counter := 0x8000
    register_y := 1
    memory := fun a =>
      if a = 0x8000 then 0x01 else if a = 0x01 then 0x03 else
      if a = 0x02 then 0x07 else 0 }

/-- Fresh CPU with a non-reset stack pointer, to observe what reset does
to the stack pointer. -/
def cpuC7 : CPU := { cpu0 with stack_pointer := 0x10 }

/-- JSR at 0x8000; the target bytes live at 0x8003 / 0x8004 because jsr
resolves its operand after advancing PC; the called address 0x9010 holds
the RTS opcode (0x40). -/
def cpuJsr : CPU :=
  { cpu0 with
    program_counter := 0x8000
    memory := fun a =>
      if a = 0x8000 then 0x20 else if a = 0x8003 then 0x10 else
      if a = 0x8004 then 0x90 else if a = 0x9010 then 0x40 else 0 }

/- Helper lemmas. -/

theorem ok_bind {α β : Type} (a : α) (f : α → Except RunErr β) :
    (Except.ok a : Except RunErr α) >>= f = f a := rfl

theorem error_bind {α β : Type} (e : RunErr) (f : α → Except RunErr β) :
    (Except.error e : Except RunErr α) >>= f = Except.error e := rfl

theorem bind_eq_ok {α β : Type} {x : Except RunErr α} {f : α → Except RunErr β}
    {b : β} (h : x >>= f = .ok b) : ∃ a, x = .ok a ∧ f a = .ok b := by
  cases x with
  | ok a => exact ⟨a, rfl, h⟩
  | error e => rw [error_bind] at h; exact absurd h (by simp)

theorem mask_bits : ∀ i, i < 8 → i ≠ 1 → i ≠ 7 →
    (Nat.testBit 2 i = false ∧ Nat.testBit 253 i = true ∧
     Nat.testBit 128 i = false ∧ Nat.testBit 127 i = true) := by decide

theorem testBit_or_of_false (s m i : Nat) (h : m.testBit i = false) :
    (s ||| m).testBit i = s.testBit i := by
  rw [Nat.testBit_lor, h, Bool.or_false]

theorem testBit_or_of_true (s m i : Nat) (h : m.testBit i = true) :
    (s ||| m).testBit i = true := by
  rw [Nat.testBit_lor, h, Bool.or_true]

theorem testBit_and_of_true (s m i : Nat) (h : m.testBit i = true) :
    (s &&& m).testBit i = s.testBit i := by
  rw [Nat.testBit_land, h, Bool.and_true]

theorem testBit_and_of_false (s m i : Nat) (h : m.testBit i = false) :
    (s &&& m).testBit i = false := by
  rw [Nat.testBit_land, h, Bool.and_false]

/-- The flag-update routine satisfies flagsSpec for every status byte and
every produced value. -/
theorem update_flags_spec (s v : Nat) :
    flagsSpec s (update_zero_and_negative_flags s v) v := by
  unfold flagsSpec
  by_cases h0 : v = 0
  · have hv7 : v &&& 128 = 0 := by rw [h0]; rfl
    have hu2 : update_zero_and_negative_flags s v = (s ||| 2) &&& 127 := by
      unfold update_zero_and_negative_flags
      rw [if_pos h0, if_neg (show ¬ (v &&& 128 ≠ 0) by simp [hv7])]
    refine ⟨?_, ?_, ?_⟩
    · rw [hu2, testBit_and_of_true _ _ _ (by decide),
        testBit_or_of_true _ _ _ (by decide)]
      simp [h0]
    · rw [hu2, testBit_and_of_false _ _ _ (by decide)]
      simp [hv7]
    · intro i hi h1 h7
      obtain ⟨m2, m253, m128, m127⟩ := mask_bits i hi h1 h7
      rw [hu2, testBit_and_of_true _ _ _ m127, testBit_or_of_false _ _ _ m2]
  · by_cases h7v : v &&& 128 ≠ 0
    · have hu2 : update_zero_and_negative_flags s v = (s &&& 253) ||| 128 := by
        unfold update_zero_and_negative_flags
        rw [if_neg h0, if_pos h7v]
      refine ⟨?_, ?_, ?_⟩
      · rw [hu2, testBit_or_of_false _ _ _ (by decide),
          testBit_and_of_false _ _ _ (by decide)]
        simp [h0]
      · rw [hu2, testBit_or_of_true _ _ _ (by decide)]
        simp [h7v]
      · intro i hi h1 h7
        obtain ⟨m2, m253, m128, m127⟩ := mask_bits i hi h1 h7
        rw [hu2, testBit_or_of_false _ _ _ m128, testBit_and_of_true _ _ _ m253]
    · have hu2 : update_zero_and_negative_flags s v = (s &&& 253) &&& 127 := by
        unfold update_zero_and_negative_flags
        rw [if_neg h0, if_neg h7v]
      refine ⟨?_, ?_, ?_⟩
      · rw [hu2, testBit_and_of_true _ _ _ (by decide),
          testBit_and_of_false _ _ _ (by decide)]
        simp [h0]
      · rw [hu2, testBit_and_of_false _ _ _ (by decide)]
        simp at h7v
        simp [h7v]
      · intro i hi h1 h7
        obtain ⟨m2, m253, m128, m127⟩ := mask_bits i hi h1 h7
        rw [hu2, testBit_and_of_true _ _ _ m127, testBit_and_of_true _ _ _ m253]

/-- Claim C1: every register-producing instruction (LDA, LDX, LDY, TAX,
TXA, INX) leaves the status byte with the Zero flag (bit 1) set iff the
produced register value is 0, the Negative flag (bit 7) set iff its bit
0x80 is set, and all other status bits unchanged. -/
theorem c1_zero_negative_flags :
    (∀ (c c' : CPU) (mode : AddressingMode),
        lda c mode = .ok c' → flagsSpec c.status c'.status c'.register_a) ∧
    (∀ (c c' : CPU) (mode : AddressingMode),
        ldx c mode = .ok c' → flagsSpec c.status c'.status c'.register_x) ∧
    (∀ (c c' : CPU) (mode : AddressingMode),
        ldy c mode = .ok c' → flagsSpec c.status c'.status c'.register_y) ∧
    (∀ c : CPU, flagsSpec c.status (tax c).status (tax c).register_x) ∧
    (∀ c : CPU, flagsSpec c.status (txa c).status (txa c).register_a) ∧
    (∀ c : CPU, flagsSpec c.status (inx c).status (inx c).register_x) := by
  refine ⟨?_, ?_, ?_, ?_, ?_, ?_⟩
  · intro c c' mode h
    unfold lda at h
    obtain ⟨addr, ha, h⟩ := bind_eq_ok h
    obtain ⟨v, hv, h⟩ := bind_eq_ok h
    cases h
    exact update_flags_spec c.status v
  · intro c c' mode h
    unfold ldx at h
    obtain ⟨addr, ha, h⟩ := bind_eq_ok h
    obtain ⟨v, hv, h⟩ := bind_eq_ok h
    cases h
    exact update_flags_spec c.status v
  · intro c c' mode h
    unfold ldy at h
    obtain ⟨addr, ha, h⟩ := bind_eq_ok h
    obtain ⟨v, hv, h⟩ := bind_eq_ok h
    cases h
    exact update_flags_spec c.status v
  · intro c
    exact update_flags_spec c.status c.register_a
  · intro c
    exact update_flags_spec c.status c.register_x
  · intro c
    exact update_flags_spec c.status ((c.register_x + 1) % 256)

/-- Witness for C1: concrete instances of all six conjuncts on cpu0. -/
theorem c1_zero_negative_flags_witness :
    flagsSpec cpu0.status cpu1a.status cpu1a.register_a ∧
    flagsSpec cpu0.status cpu1x.status cpu1x.register_x ∧
    flagsSpec cpu0.status cpu1y.status cpu1y.register_y ∧
    flagsSpec cpu0.status (tax cpu0).status (tax cpu0).register_x ∧
    flagsSpec cpu0.status (txa cpu0).status (txa cpu0).register_a ∧
    flagsSpec cpu0.status (inx cpu0).status (inx cpu0).register_x :=
  ⟨c1_zero_negative_flags.1 cpu0 cpu1a .Immediate rfl,
   c1_zero_negative_flags.2.1 cpu0 cpu1x .Immediate rfl,
   c1_zero_negative_flags.2.2.1 cpu0 cpu1y .Immediate rfl,
   c1_zero_negative_flags.2.2.2.1 cpu0,
   c1_zero_negative_flags.2.2.2.2.1 cpu0,
   c1_zero_negative_flags.2.2.2.2.2 cpu0⟩

/-- Claim C2: evaluation at the failing input.  Executing the JSR at
0x8000 (a 3-byte instruction) and then the RTS at the called address
leaves PC at 0x8001, not at 0x8003, the instruction following the call
site: jsr pushes the return address 0x8002, but rts pops the two bytes
from the wrong cells (stack_pop reads below the last pushed byte) and
rebuilds the address as hi shifted by (8 + lo) instead of (hi << 8) | lo. -/
theorem c2_jsr_rts_eval :
    ((stepN 2 cpuJsr).map fun r => (stepResultCPU r).program_counter) = .ok 0x8001 ∧
    (0x8001 : Nat) ≠ 0x8003 :=
  ⟨rfl, by decide⟩

/-- Claim C3: an opcode byte with no arm in the dispatch table makes step
fail with UnsupportedOpcode (the todo-panic), and the run loop stops with
that same error; the byte is never treated as a no-op. -/
theorem c3_unsupported_opcode (c : CPU) (op : Nat)
    (h1 : mem_read c c.program_counter = .ok op)
    (h2 : op ∉ supportedOpcodes) :
    step c = .error (.UnsupportedOpcode op) ∧
    ∀ n, runFuel (n + 1) c = .error (.UnsupportedOpcode op) := by
  have hpc : c.program_counter < memSize := by
    by_contra hh
    unfold mem_read at h1
    rw [if_neg hh] at h1
    exact absurd h1 (by simp)
  have hadd : addU16 c.program_counter 1 = .ok (c.program_counter + 1) := by
    unfold addU16
    rw [if_pos (by unfold memSize at hpc; omega)]
  have hs : step c = .error (.UnsupportedOpcode op) := by
    unfold step
    rw [h1, ok_bind, hadd, ok_bind]
    split
    all_goals first
      | rfl
      | exact absurd (by decide) h2
  exact ⟨hs, fun n => by unfold runFuel; rw [hs, error_bind]⟩

/-- Witness for C3: opcode 0x02 has no dispatch arm. -/
theorem c3_unsupported_opcode_witness :
    step cpuBad = .error (.UnsupportedOpcode 2) ∧
    runFuel 1 cpuBad = .error (.UnsupportedOpcode 2) :=
  ⟨(c3_unsupported_opcode cpuBad 2 rfl (by decide)).1,
   (c3_unsupported_opcode cpuBad 2 rfl (by decide)).2 0⟩

/-- Claim C4: evaluation at the failing inputs.  The stack pointer and the
program counter do not use wrapping arithmetic: pushing with SP = 0 hits
the overflow panic of the plain u8 decrement instead of wrapping to 0xFF,
and executing with PC = 0xFFFF hits the bounds panic of the 0xFFFF-cell
memory array instead of wrapping past 0xFFFF. -/
theorem c4_sp_pc_no_wrap :
    (∀ (c : CPU) (b : Nat), c.stack_pointer = 0 →
        stack_push c b = .error .ArithmeticOverflow) ∧
    (∀ c : CPU, c.program_counter = 0xFFFF →
        step c = .error .IndexOutOfBounds) := by
  constructor
  · intro c b h
    unfold stack_push
    have hw : mem_write c c.stack_pointer b =
        .ok { c with memory := fun i => if i = c.stack_pointer then b else c.memory i } := by
      unfold mem_write
      rw [if_pos (by rw [h]; unfold memSize; omega)]
    rw [hw, ok_bind]
    have hsub : subU8 c.stack_pointer 1 = .error .ArithmeticOverflow := by
      unfold subU8
      rw [if_neg (by omega)]
    rw [show ({ c with memory := fun i => if i = c.stack_pointer then b else c.memory i } : CPU).stack_pointer = c.stack_pointer from rfl, hsub, error_bind]
  · intro c h
    unfold step
    have hr : mem_read c c.program_counter = .error .IndexOutOfBounds := by
      unfold mem_read
      rw [if_neg (by rw [h]; unfold memSize; omega)]
    rw [hr, error_bind]

/-- Witness for C4: concrete states with SP = 0 and PC = 0xFFFF. -/
theorem c4_sp_pc_no_wrap_witness :
    stack_push { cpu0 with stack_pointer := 0 } 7 = .error .ArithmeticOverflow ∧
    step { cpu0 with program_counter := 0xFFFF } = .error .IndexOutOfBounds :=
  ⟨c4_sp_pc_no_wrap.1 { cpu0 with stack_pointer := 0 } 7 rfl,
   c4_sp_pc_no_wrap.2 { cpu0 with program_counter := 0xFFFF } rfl⟩

/-- Claim C5: behaviour of load.  (1) At the failing input — an image of
0x8000 bytes, which fills 0x8000..0xFFFF of a 65536-byte address space and
so fits per the claim — the slice write panics (the memory array has only
0xFFFF cells); no recoverable ProgramTooLarge value exists in the code.
(2) For images the array can hold, the bytes are copied to 0x8000.. and
the little-endian word 0x8000 is written at 0xFFFC (the vector bytes win
if the image reaches 0xFFFC/0xFFFD); memory below 0x8000 is untouched.
(3) Any larger image is rejected with the bounds panic before any write. -/
theorem c5_load :
    load cpu0 (List.replicate 0x8000 0) = .error .IndexOutOfBounds ∧
    (∀ (c : CPU) (program : List Nat), 0x8000 + program.length ≤ memSize →
      ∃ c', load c program = .ok c' ∧
        c'.memory 0xFFFC = 0x00 ∧ c'.memory 0xFFFD = 0x80 ∧
        (∀ i, i < program.length → 0x8000 + i < 0xFFFC →
          c'.memory (0x8000 + i) = program.getD i 0) ∧
        (∀ a, a < 0x8000 → c'.memory a = c.memory a)) ∧
    (∀ (c : CPU) (program : List Nat), ¬ 0x8000 + program.length ≤ memSize →
      load c program = .error .IndexOutOfBounds) := by
  refine ⟨?_, ?_, ?_⟩
  · unfold load
    rw [List.length_replicate]
    rw [if_neg (by decide)]
  · intro c program h
    unfold load
    rw [if_pos h]
    refine ⟨_, rfl, ?_, ?_, ?_, ?_⟩
    · show (if (0xFFFC : Nat) = 0xFFFD then (0x80 : Nat)
          else if (0xFFFC : Nat) = 0xFFFC then 0x00
          else if 0x8000 ≤ (0xFFFC : Nat) ∧ (0xFFFC : Nat) < 0x8000 + program.length then
            program.getD (0xFFFC - 0x8000) 0
          else c.memory 0xFFFC) = 0x00
      rw [if_neg (by omega), if_pos rfl]
    · show (if (0xFFFD : Nat) = 0xFFFD then (0x80 : Nat)
          else if (0xFFFD : Nat) = 0xFFFC then 0x00
          else if 0x8000 ≤ (0xFFFD : Nat) ∧ (0xFFFD : Nat) < 0x8000 + program.length then
            program.getD (0xFFFD - 0x8000) 0
          else c.memory 0xFFFD) = 0x80
      rw [if_pos rfl]
    · intro i hi hlt
      show (if 0x8000 + i = 0xFFFD then (0x80 : Nat)
          else if 0x8000 + i = 0xFFFC then 0x00
          else if 0x8000 ≤ 0x8000 + i ∧ 0x8000 + i < 0x8000 + program.length then
            program.getD (0x8000 + i - 0x8000) 0
          else c.memory (0x8000 + i)) = program.getD i 0
      rw [if_neg (by omega), if_neg (by omega), if_pos (by omega),
        show 0x8000 + i - 0x8000 = i by omega]
    · intro a ha
      show (if a = 0xFFFD then (0x80 : Nat)
          else if a = 0xFFFC then 0x00
          else if 0x8000 ≤ a ∧ a < 0x8000 + program.length then
            program.getD (a - 0x8000) 0
          else c.memory a) = c.memory a
      rw [if_neg (by omega), if_neg (by omega), if_neg (by omega)]
  · intro c program h
    unfold load
    rw [if_neg h]

/-- Witness for C5: a three-byte program fits; the replicated 0x8000-byte
image from the first conjunct does not. -/
theorem c5_load_witness :
    (∃ c', load cpu0 [0xA9, 0x05, 0x00] = .ok c' ∧
        c'.memory 0xFFFC = 0x00 ∧ c'.memory 0xFFFD = 0x80 ∧
        (∀ i, i < [0xA9, 0x05, 0x00].length → 0x8000 + i < 0xFFFC →
          c'.memory (0x8000 + i) = [0xA9, 0x05, 0x00].getD i 0) ∧
        (∀ a, a < 0x8000 → c'.memory a = cpu0.memory a)) ∧
    load cpu0 (List.replicate 0x10000 0) = .error .IndexOutOfBounds :=
  ⟨c5_load.2.1 cpu0 [0xA9, 0x05, 0x00] (by decide),
   c5_load.2.2 cpu0 (List.replicate 0x10000 0)
     (by rw [List.length_replicate]; decide)⟩

/-- Claim C6, counterexample: in the spec's own scenario (pointer bytes
0x03, 0x07 at 0x01/0x02, pointer byte 0x01 at PC, Y = 1) the effective
address computed by the code is 0x0704 — the little-endian base 0x0703
plus 1 — not 0x0705 as the claim states. -/
theorem c6_indirect_y_counterexample :
    get_operand_address cpuC6 .Indirect_Y = .ok 0x0704 ∧ (0x0704 : Nat) ≠ 0x0705 :=
  ⟨rfl, by decide⟩

/-- Claim C6 as amended: Indirect_Y reads the pointer byte p at PC with no
X offset, dereferences the zero-page bytes at p and p + 1 (wrapping in the
zero page) as a little-endian base, and adds Y with 16-bit wrap; in the
spec's scenario the effective address is 0x0704. -/
theorem c6_indirect_y :
    (∀ c : CPU, c.program_counter < memSize → c.memory c.program_counter < 256 →
      get_operand_address c .Indirect_Y =
        .ok (indirectYAddrSpec c.memory c.program_counter c.register_y)) ∧
    get_operand_address cpuC6 .Indirect_Y = .ok 0x0704 := by
  constructor
  · intro c h1 h2
    have e1 : mem_read c c.program_counter = .ok (c.memory c.program_counter) := by
      unfold mem_read
      rw [if_pos h1]
    have e2 : mem_read c (c.memory c.program_counter) =
        .ok (c.memory (c.memory c.program_counter)) := by
      unfold mem_read
      rw [if_pos (by unfold memSize; omega)]
    have hm : (c.memory c.program_counter + 1) % 256 < memSize := by
      have := Nat.mod_lt (c.memory c.program_counter + 1) (show 0 < 256 by norm_num)
      unfold memSize
      omega
    have e3 : mem_read c ((c.memory c.program_counter + 1) % 256) =
        .ok (c.memory ((c.memory c.program_counter + 1) % 256)) := by
      unfold mem_read
      rw [if_pos hm]
    show (do
        let base ← mem_read c c.program_counter
        let lo ← mem_read c base
        let hi ← mem_read c ((base + 1) % 256)
        let deref_base := (hi <<< 8) ||| lo
        Except.ok ((deref_base + c.register_y) % 65536)) =
      Except.ok (indirectYAddrSpec c.memory c.program_counter c.register_y)
    rw [e1, ok_bind, e2, ok_bind, e3, ok_bind]
    rfl
  · rfl

/-- Witness for C6: the general formula applied to the concrete scenario. -/
theorem c6_indirect_y_witness :
    get_operand_address cpuC6 .Indirect_Y =
      .ok (indirectYAddrSpec cpuC6.memory cpuC6.program_counter cpuC6.register_y) :=
  c6_indirect_y.1 cpuC6 (by decide) (by decide)

/-- Claim C7, counterexample: reset does not put the stack pointer back to
0xFF — starting from SP = 0x10 it is still 0x10 after reset. -/
theorem c7_reset_counterexample :
    (reset cpuC7).map (fun c => c.stack_pointer) = .ok 0x10 ∧ (0x10 : Nat) ≠ 0xFF :=
  ⟨rfl, by decide⟩

/-- Claim C7 as amended: reset clears A, X, Y and the status byte, loads
PC from the little-endian word at the reset vector 0xFFFC, and leaves the
stack pointer (set to 0xFF only at construction) unchanged. -/
theorem c7_reset (c : CPU) :
    reset c = .ok { c with
      register_a := 0
      register_x := 0
      register_y := 0
      status := 0
      program_counter := (c.memory 0xFFFD <<< 8) ||| c.memory 0xFFFC } ∧
    CPU.new.stack_pointer = 0xFF :=
  ⟨rfl, rfl⟩

/-- Claim C8: the memory store is one byte short of the full 16-bit
address space — any access at 0xFFFF hits the bounds panic, while every
address below 0xFFFF reads and writes without failure. -/
theorem c8_memory_bounds :
    (∀ (c : CPU) (v : Nat),
        mem_read c 0xFFFF = .error .IndexOutOfBounds ∧
        mem_write c 0xFFFF v = .error .IndexOutOfBounds) ∧
    (∀ (c : CPU) (a : Nat), a < memSize →
        mem_read c a = .ok (c.memory a) ∧
        ∀ v, ∃ c', mem_write c a v = .ok c') := by
  constructor
  · intro c v
    exact ⟨rfl, rfl⟩
  · intro c a h
    refine ⟨?_, fun v =>
      ⟨{ c with memory := fun i => if i = a then v else c.memory i }, ?_⟩⟩
    · unfold mem_read
      rw [if_pos h]
    · unfold mem_write
      rw [if_pos h]

/-- Witness for C8: both halves at concrete addresses. -/
theorem c8_memory_bounds_witness :
    mem_read cpu0 0xFFFF = .error .IndexOutOfBounds ∧
    mem_write cpu0 0xFFFF 0 = .error .IndexOutOfBounds ∧
    mem_read cpu0 0x10 = .ok 0 ∧
    (∃ c', mem_write cpu0 0x10 3 = .ok c') :=
  ⟨(c8_memory_bounds.1 cpu0 0).1, (c8_memory_bounds.1 cpu0 0).2,
   (c8_memory_bounds.2 cpu0 0x10 (by decide)).1,
   (c8_memory_bounds.2 cpu0 0x10 (by decide)).2 3⟩

/-- Claim C10: evaluation at the failing input.  On a fresh CPU, pushing
the byte 5 and immediately popping returns 0 — the byte one cell below
the one stack_push wrote, because stack_pop reads at the decremented
stack pointer before incrementing it — although the stack pointer itself
is restored to its pre-push value 0xFF. -/
theorem c10_push_pop_eval :
    pushPop cpu0 5 = .ok (0, 0xFF) ∧ (0 : Nat) ≠ 5 :=
  ⟨rfl, by decide⟩

theorem hi_lo_recombine (d : Nat) (h : d < 65536) :
    ((d >>> 8) % 256) <<< 8 ||| (d &&& 0xff) = d := by
  have hd : d >>> 8 < 256 := by
    rw [Nat.shiftRight_eq_div_pow]
    have h28 : (2 : Nat) ^ 8 = 256 := by norm_num
    rw [h28]
    omega
  rw [Nat.mod_eq_of_lt hd]
  apply Nat.eq_of_testBit_eq
  intro i
  have h255 : Nat.testBit 255 i = decide (i < 8) := by
    have e : (255 : Nat) = 2 ^ 8 - 1 := by norm_num
    rw [e, Nat.testBit_two_pow_sub_one]
  rw [Nat.testBit_lor, Nat.testBit_land, Nat.testBit_shiftLeft,
    Nat.testBit_shiftRight, h255]
  by_cases hi : i < 8
  · have hge : decide (i ≥ 8) = false := by simp [hi, Nat.not_le.mpr hi]
    have hlt : decide (i < 8) = true := by simp [hi]
    rw [hge, hlt, Bool.false_and, Bool.false_or, Bool.and_true]
  · have hge : decide (i ≥ 8) = true := by simp [Nat.le_of_not_lt hi]
    have hlt : decide (i < 8) = false := by simp [hi]
    have harith : 8 + (i - 8) = i := by omega
    rw [hge, hlt, harith, Bool.true_and, Bool.and_false, Bool.or_false]

/-- Claim C9: writing a 16-bit value d little-endian at an address a with
a and a + 1 in bounds and then reading 16 bits at a gives back d. -/
theorem c9_u16_round_trip (c : CPU) (a d : Nat)
    (h1 : a + 1 < memSize) (h2 : d < 65536) :
    ((mem_write_u16 c a d).bind fun c' => mem_read_u16 c' a) = .ok d := by
  have ha : a < memSize := by omega
  have ha16 : a + 1 < 65536 := by unfold memSize at h1; omega
  have e1 : mem_write c a (d &&& 0xff) =
      .ok { c with memory := fun i => if i = a then d &&& 0xff else c.memory i } := by
    unfold mem_write
    rw [if_pos ha]
  have eadd : addU16 a 1 = .ok (a + 1) := by
    unfold addU16
    rw [if_pos ha16]
  have e2 : mem_write
      { c with memory := fun i => if i = a then d &&& 0xff else c.memory i }
      (a + 1) ((d >>> 8) % 256) =
      .ok { c with memory := fun i => if i = a + 1 then (d >>> 8) % 256
            else if i = a then d &&& 0xff else c.memory i } := by
    unfold mem_write
    rw [if_pos h1]
  have e3 : mem_read
      { c with memory := fun i => if i = a + 1 then (d >>> 8) % 256
        else if i = a then d &&& 0xff else c.memory i } a = .ok (d &&& 0xff) := by
    unfold mem_read
    rw [if_pos ha]
    show Except.ok (if a = a + 1 then (d >>> 8) % 256
      else if a = a then d &&& 0xff else c.memory a) = _
    rw [if_neg (by omega), if_pos rfl]
  have e4 : mem_read
      { c with memory := fun i => if i = a + 1 then (d >>> 8) % 256
        else if i = a then d &&& 0xff else c.memory i } (a + 1) =
      .ok ((d >>> 8) % 256) := by
    unfold mem_read
    rw [if_pos h1]
    show Except.ok (if a + 1 = a + 1 then (d >>> 8) % 256
      else if a + 1 = a then d &&& 0xff else c.memory (a + 1)) = _
    rw [if_pos rfl]
  show ((mem_write c a (d &&& 0xff) >>= fun c =>
      addU16 a 1 >>= fun p1 => mem_write c p1 ((d >>> 8) % 256)) >>= fun c' =>
      mem_read_u16 c' a) = .ok d
  rw [e1, ok_bind, eadd, ok_bind, e2, ok_bind]
  unfold mem_read_u16
  rw [e3, ok_bind, eadd, ok_bind, e4, ok_bind, hi_lo_recombine d h2]

/-- Witness for C9: concrete round trip at address 0x10 with d = 0xABCD. -/
theorem c9_u16_round_trip_witness :
    ((mem_write_u16 cpu0 0x10 0xABCD).bind fun c' => mem_read_u16 c' 0x10) =
      .ok 0xABCD :=
  c9_u16_round_trip cpu0 0x10 0xABCD (by decide) (by decide)

end Nes
